import Mathlib

/-!
Shallow embedding of the Picosystem platformer (`main.py`).

Positions and velocities are Python floats in the source; they are modelled
as rationals (`ℚ`), which carries the source's arithmetic (additions of
halves and small integers) exactly.  The only transcendental in the program
is the collectible bob animation `math.sin(tick_counter * 0.1) * 2`; every
theorem below is proved for an arbitrary bob function `bobFn : ℕ → ℚ`
(standing for `fun t => 2 * sin (t / 10)`), so each result holds in
particular for the source's sine bob.  Button reads
(`picosystem.button(LEFT/RIGHT)`, `picosystem.pressed(A)`,
`picosystem.pressed(X)`) are modelled by an `Input` record passed to the
tick functions.
-/

namespace Pico

/-- Rectangle `(x, y, width, height)` as the 4-tuples used for all
collision tests in `main.py`. -/
structure Rect where
  x : ℚ
  y : ℚ
  w : ℚ
  h : ℚ

/-- Buttons sampled during one tick: `left`/`right` are level-triggered
(`picosystem.button`), `jumpPressed` is the edge-triggered A button and
`restartPressed` the edge-triggered X button (`picosystem.pressed`). -/
structure Input where
  left : Bool
  right : Bool
  jumpPressed : Bool
  restartPressed : Bool

/-- Game constant `SCREEN_WIDTH = 120`. -/
def SCREEN_WIDTH : ℚ := 120

/-- Game constant `SCREEN_HEIGHT = 120`. -/
def SCREEN_HEIGHT : ℚ := 120

/-- Game constant `GRAVITY = 0.5`. -/
def GRAVITY : ℚ := 1 / 2

/-- Game constant `JUMP_STRENGTH = -8`. -/
def JUMP_STRENGTH : ℚ := -8

/-- Game constant `PLAYER_SPEED = 2`. -/
def PLAYER_SPEED : ℚ := 2

/-- Color constant `WHITE = (15, 15, 15)`. -/
def WHITE : ℤ × ℤ × ℤ := (15, 15, 15)

/-- Color constant `GREEN = (0, 15, 0)`. -/
def GREEN : ℤ × ℤ × ℤ := (0, 15, 0)

/-- Color constant `GRAY = (8, 8, 8)`. -/
def GRAY : ℤ × ℤ × ℤ := (8, 8, 8)

/-- Color constant `BROWN = (8, 4, 0)`. -/
def BROWN : ℤ × ℤ × ℤ := (8, 4, 0)

/-- The axis-aligned overlap test `Player.rect_collision` (main.py
lines 135-140): strict comparisons on all four sides. -/
def rect_collision (rect1 rect2 : Rect) : Bool :=
  decide (rect1.x < rect2.x + rect2.w) && decide (rect1.x + rect1.w > rect2.x) &&
  decide (rect1.y < rect2.y + rect2.h) && decide (rect1.y + rect1.h > rect2.y)

/-- The `Player` object: position, fixed 8×8 size, velocity, ground flag and
the construction position remembered for resets (main.py lines 73-82). -/
structure Player where
  x : ℚ
  y : ℚ
  width : ℚ
  height : ℚ
  vel_x : ℚ
  vel_y : ℚ
  on_ground : Bool
  start_x : ℚ
  start_y : ℚ

/-- `Player.__init__(x, y)`. -/
def Player.init (x y : ℚ) : Player :=
  ⟨x, y, 8, 8, 0, 0, false, x, y⟩

/-- The player's collision rectangle `(x, y, width, height)`. -/
def Player.rect (p : Player) : Rect :=
  ⟨p.x, p.y, p.width, p.height⟩

/-- Input handling at the top of `Player.update`: left takes priority,
otherwise right, otherwise horizontal velocity is zeroed. -/
def Player.steer (inp : Input) (p : Player) : Player :=
  if inp.left then { p with vel_x := -PLAYER_SPEED }
  else if inp.right then { p with vel_x := PLAYER_SPEED }
  else { p with vel_x := 0 }

/-- Jump step of `Player.update`: a fresh A press while on the ground sets
`vel_y = JUMP_STRENGTH` and clears `on_ground`. -/
def Player.jump (inp : Input) (p : Player) : Player :=
  if inp.jumpPressed && p.on_ground then
    { p with vel_y := JUMP_STRENGTH, on_ground := false }
  else p

/-- Unconditional gravity step of `Player.update`. -/
def Player.gravity (p : Player) : Player :=
  { p with vel_y := p.vel_y + GRAVITY }

/-- Position integration step of `Player.update`: both coordinates advance
by the current velocity. -/
def Player.move (p : Player) : Player :=
  { p with x := p.x + p.vel_x, y := p.y + p.vel_y }

/-- The player state right before `handle_collisions` runs: input steering,
jump, gravity and the position update, in the source's order. -/
def Player.postMove (inp : Input) (p : Player) : Player :=
  Player.move (Player.gravity (Player.jump inp (Player.steer inp p)))

/-- A static platform (main.py lines 161-173); `color` is the drawing color,
never consulted by game logic. -/
structure Platform where
  x : ℚ
  y : ℚ
  width : ℚ
  height : ℚ
  color : ℤ × ℤ × ℤ

/-- `Platform.get_rect`. -/
def Platform.get_rect (pl : Platform) : Rect :=
  ⟨pl.x, pl.y, pl.width, pl.height⟩

/-- One iteration of the `for platform in platforms` loop inside
`Player.handle_collisions` (main.py lines 122-133).  The overlap test uses
`player_rect`, the rectangle captured before the loop, while the branch
conditions read the current `vel_y` and `y`. -/
def Player.collideOne (player_rect : Rect) (pl : Platform) (p : Player) : Player :=
  if rect_collision player_rect (Platform.get_rect pl) then
    if p.vel_y > 0 then
      if p.y < pl.y then { p with y := pl.y - p.height, vel_y := 0, on_ground := true }
      else p
    else if p.vel_y < 0 then
      if p.y > pl.y then { p with y := pl.y + pl.height, vel_y := 0 }
      else p
    else p
  else p

/-- `Player.handle_collisions` (main.py lines 117-133): capture the player
rectangle, reset `on_ground`, then fold the per-platform resolution over the
platform list in order. -/
def Player.handle_collisions (platforms : List Platform) (p : Player) : Player :=
  platforms.foldl (fun q pl => Player.collideOne (Player.rect p) pl q)
    { p with on_ground := false }

/-- The horizontal clamp at the end of `Player.update` (main.py
lines 112-115). -/
def Player.clampX (p : Player) : Player :=
  if p.x < 0 then { p with x := 0 }
  else if p.x + p.width > SCREEN_WIDTH then { p with x := SCREEN_WIDTH - p.width }
  else p

/-- `Player.update(platforms)` for one tick (main.py lines 84-115). -/
def Player.update (inp : Input) (platforms : List Platform) (p : Player) : Player :=
  Player.clampX (Player.handle_collisions platforms (Player.postMove inp p))

/-- `Player.reset` (main.py lines 142-148). -/
def Player.reset (p : Player) : Player :=
  { p with x := p.start_x, y := p.start_y, vel_x := 0, vel_y := 0, on_ground := false }

/-- A collectible (main.py lines 181-202).  `is_star` models the attribute
the level setup adds dynamically to the one star instance; every other
collectible carries `is_star = false` (spec section 9 models it as a proper
field defaulting to false). -/
structure Collectible where
  x : ℚ
  y : ℚ
  width : ℚ
  height : ℚ
  collected : Bool
  bob_offset : ℚ
  tick_counter : ℕ
  is_star : Bool

/-- `Collectible.__init__(x, y)`. -/
def Collectible.init (x y : ℚ) : Collectible :=
  ⟨x, y, 6, 6, false, 0, 0, false⟩

/-- `Collectible.update` (main.py lines 193-198): advance the tick counter
and recompute the bob offset from it.  `bobFn k` stands for
`math.sin(k * 0.1) * 2`. -/
def Collectible.update (bobFn : ℕ → ℚ) (c : Collectible) : Collectible :=
  { c with tick_counter := c.tick_counter + 1,
           bob_offset := bobFn (c.tick_counter + 1) }

/-- `Collectible.get_rect`: the collision rectangle uses the current bobbed
vertical position. -/
def Collectible.get_rect (c : Collectible) : Rect :=
  ⟨c.x, c.y + c.bob_offset, c.width, c.height⟩

/-- The game state: one player, the platform list, the collectible list
(whose last, 8th element is the star the source also aliases as
`self.star`), the score and the completion flag (main.py lines 235-241). -/
structure Game where
  player : Player
  platforms : List Platform
  collectibles : List Collectible
  score : ℕ
  game_complete : Bool

/-- The platform list built by `Game.setup_level` (main.py lines 246-261). -/
def levelPlatforms : List Platform :=
  [⟨0, 110, 40, 10, GREEN⟩, ⟨60, 110, 60, 10, GREEN⟩,
   ⟨30, 90, 20, 8, WHITE⟩, ⟨70, 80, 25, 8, WHITE⟩,
   ⟨15, 70, 20, 8, WHITE⟩, ⟨80, 60, 30, 8, WHITE⟩,
   ⟨10, 50, 25, 8, WHITE⟩, ⟨50, 40, 30, 8, WHITE⟩,
   ⟨90, 30, 25, 8, WHITE⟩, ⟨40, 20, 40, 8, GRAY⟩]

/-- The collectible list built by `Game.setup_level` (main.py
lines 264-275): seven plain collectibles followed by the star at index 7. -/
def levelCollectibles : List Collectible :=
  [Collectible.init 35 82, Collectible.init 78 72, Collectible.init 20 62,
   Collectible.init 88 52, Collectible.init 20 42, Collectible.init 65 32,
   Collectible.init 98 22, { Collectible.init 55 12 with is_star := true }]

/-- `Game.__init__` followed by `setup_level` (main.py lines 235-275). -/
def Game.init : Game :=
  { player := Player.init 20 80, platforms := levelPlatforms,
    collectibles := levelCollectibles, score := 0, game_complete := false }

/-- The collectible the source aliases as `self.star`: the 8th element it
appended to `self.collectibles`.  All list updates are positional, so the
alias stays the element at index 7. -/
def Game.star (g : Game) : Collectible :=
  (g.collectibles.get? 7).getD (Collectible.init 0 0)

/-- How one collectible comes out of the update-and-pickup loop of
`Game.update` (main.py lines 292-301): it is animated, then marked collected
when it was not yet collected and overlaps the player rectangle. -/
def elemStep (bobFn : ℕ → ℚ) (player_rect : Rect) (c : Collectible) : Collectible :=
  let c1 := Collectible.update bobFn c
  if !c1.collected && rect_collision player_rect (Collectible.get_rect c1) then
    { c1 with collected := true }
  else c1

/-- The `for collectible in self.collectibles` loop of `Game.update`
(main.py lines 292-301), threading the score: each newly collected item adds
10. -/
def Game.collectLoop (bobFn : ℕ → ℚ) (player_rect : Rect) :
    List Collectible → ℕ → List Collectible × ℕ
  | [], score => ([], score)
  | c :: rest, score =>
    let c1 := Collectible.update bobFn c
    if !c1.collected && rect_collision player_rect (Collectible.get_rect c1) then
      let r := Game.collectLoop bobFn player_rect rest (score + 10)
      ({ c1 with collected := true } :: r.1, r.2)
    else
      let r := Game.collectLoop bobFn player_rect rest score
      (c1 :: r.1, r.2)

/-- `Game.restart_level` (main.py lines 311-317). -/
def Game.restart_level (g : Game) : Game :=
  { g with player := Player.reset g.player, score := 0, game_complete := false,
           collectibles := g.collectibles.map fun c => { c with collected := false } }

/-- The player-and-collectibles portion of `Game.update` (main.py
lines 288-301): update the player, then run the pickup loop against the
updated player's rectangle. -/
def Game.playTick (bobFn : ℕ → ℚ) (inp : Input) (g : Game) : Game :=
  let p1 := Player.update inp g.platforms g.player
  let r := Game.collectLoop bobFn (Player.rect p1) g.collectibles g.score
  { g with player := p1, collectibles := r.1, score := r.2 }

/-- The fall-off-bottom check of `Game.update` (main.py lines 303-305);
note the source does not return after this restart. -/
def Game.fallCheck (g : Game) : Game :=
  if g.player.y > SCREEN_HEIGHT + 20 then Game.restart_level g else g

/-- The star check at the end of `Game.update` (main.py lines 307-309). -/
def Game.starCheck (g : Game) : Game :=
  if (Game.star g).collected then { g with game_complete := true } else g

/-- `Game.update` for one tick (main.py lines 278-309): the restart button
is checked first and short-circuits everything, a completed game only waits
for restart, otherwise the tick runs player physics, the pickup loop, the
fall-off check and the star check in order. -/
def Game.update (bobFn : ℕ → ℚ) (inp : Input) (g : Game) : Game :=
  if inp.restartPressed then Game.restart_level g
  else if g.game_complete then g
  else Game.starCheck (Game.fallCheck (Game.playTick bobFn inp g))

/-- States reachable from the freshly constructed game by ticking
`Game.update` with arbitrary inputs (the bob function is fixed for the whole
run, as the source's sine is). -/
inductive Reachable (bobFn : ℕ → ℚ) : Game → Prop
  | init : Reachable bobFn Game.init
  | step : ∀ (g : Game) (inp : Input), Reachable bobFn g →
      Reachable bobFn (Game.update bobFn inp g)

/-- Iterated player ticks under an input stream, used to state the
horizontal convergence properties. -/
def playerTicks (inps : ℕ → Input) (platforms : List Platform) (p : Player) :
    ℕ → Player
  | 0 => p
  | n + 1 => Player.update (inps n) platforms (playerTicks inps platforms p n)

/-- The horizontal velocity `Player.steer` assigns for a given input. -/
def velXOf (inp : Input) : ℚ :=
  if inp.left then -PLAYER_SPEED else if inp.right then PLAYER_SPEED else 0

/-- The vertical velocity after the jump and gravity steps of
`Player.update`. -/
def velYOf (inp : Input) (p : Player) : ℚ :=
  (if inp.jumpPressed && p.on_ground then JUMP_STRENGTH else p.vel_y) + GRAVITY

/-- The pure horizontal clamp of `Player.update` for a player of width `w`. -/
def clampQ (w x : ℚ) : ℚ :=
  if x < 0 then 0 else if x + w > SCREEN_WIDTH then SCREEN_WIDTH - w else x

/-- A bob function that is identically zero, used to instantiate the
abstract bob parameter in concrete witnesses. -/
def bobZero : ℕ → ℚ := fun _ => 0

/-- An input with no buttons active. -/
def inpNone : Input := ⟨false, false, false, false⟩

/-- An input with only the restart (X) button freshly pressed. -/
def inpRestart : Input := ⟨false, false, false, true⟩

/-- An input holding only the left button. -/
def inpLeft : Input := ⟨true, false, false, false⟩

/-- An input with only the jump (A) button freshly pressed. -/
def inpJumpW : Input := ⟨false, false, true, false⟩

/-- A grounded player used to witness the jump claim. -/
def groundedPlayerW : Player := ⟨20, 80, 8, 8, 0, 0, true, 20, 80⟩

/-- Platform used in the landing counterexample: top at `y = 100`. -/
def cexPlatA : Platform := ⟨0, 100, 20, 10, BROWN⟩

/-- Second platform of the landing counterexample: top at `y = 101`, also
overlapping the falling player. -/
def cexPlatB : Platform := ⟨0, 101, 20, 10, BROWN⟩

/-- The falling player of the landing counterexample: after this tick's
gravity and move it sits at `y = 94` with `vel_y = 1`, overlapping both
counterexample platforms. -/
def cexFallingPlayer : Player := ⟨0, 93, 8, 8, 0, 1 / 2, false, 0, 93⟩

/-- A game state for the fall-off counterexample: the player is parked just
below the kill line with a strong upward velocity, and some score has been
accumulated. -/
def cexFallGame : Game :=
  { Game.init with
    player := { Game.init.player with y := 141, vel_y := -8 }, score := 30 }

/-- A game state for the fall-off witness: the player is just below the
kill line and moving down, with a nonzero score to be wiped. -/
def witFallGame : Game :=
  { Game.init with
    player := { Game.init.player with y := 141, vel_y := 3 }, score := 50 }

/-! ### Basic lemmas about the player tick -/

lemma postMove_eq (inp : Input) (p : Player) :
    Player.postMove inp p =
      { p with vel_x := velXOf inp, vel_y := velYOf inp p,
               on_ground := p.on_ground && !(inp.jumpPressed && p.on_ground),
               x := p.x + velXOf inp, y := p.y + velYOf inp p } := by
  unfold Player.postMove Player.move Player.gravity Player.jump Player.steer
    velXOf velYOf
  cases hl : inp.left <;> cases hrt : inp.right <;>
    cases hj : inp.jumpPressed <;> cases hg : p.on_ground <;> simp

lemma collideOne_frame (r : Rect) (pl : Platform) (p : Player) :
    (Player.collideOne r pl p).x = p.x ∧
    (Player.collideOne r pl p).vel_x = p.vel_x ∧
    (Player.collideOne r pl p).width = p.width ∧
    (Player.collideOne r pl p).height = p.height ∧
    (Player.collideOne r pl p).start_x = p.start_x ∧
    (Player.collideOne r pl p).start_y = p.start_y := by
  unfold Player.collideOne
  split_ifs <;> simp

lemma collideOne_of_vel_y_zero (r : Rect) (pl : Platform) (p : Player)
    (h : p.vel_y = 0) : Player.collideOne r pl p = p := by
  unfold Player.collideOne
  rw [h]
  simp

lemma foldl_collide_frame (r : Rect) (l : List Platform) (q : Player) :
    (l.foldl (fun a pl => Player.collideOne r pl a) q).x = q.x ∧
    (l.foldl (fun a pl => Player.collideOne r pl a) q).vel_x = q.vel_x ∧
    (l.foldl (fun a pl => Player.collideOne r pl a) q).width = q.width ∧
    (l.foldl (fun a pl => Player.collideOne r pl a) q).height = q.height ∧
    (l.foldl (fun a pl => Player.collideOne r pl a) q).start_x = q.start_x ∧
    (l.foldl (fun a pl => Player.collideOne r pl a) q).start_y = q.start_y := by
  induction l generalizing q with
  | nil => simp
  | cons pl rest ih =>
    simp only [List.foldl_cons]
    obtain ⟨h1, h2, h3, h4, h5, h6⟩ := ih (Player.collideOne r pl q)
    obtain ⟨g1, g2, g3, g4, g5, g6⟩ := collideOne_frame r pl q
    exact ⟨h1.trans g1, h2.trans g2, h3.trans g3, h4.trans g4,
           h5.trans g5, h6.trans g6⟩

lemma handle_collisions_frame (l : List Platform) (p : Player) :
    (Player.handle_collisions l p).x = p.x ∧
    (Player.handle_collisions l p).vel_x = p.vel_x ∧
    (Player.handle_collisions l p).width = p.width ∧
    (Player.handle_collisions l p).height = p.height ∧
    (Player.handle_collisions l p).start_x = p.start_x ∧
    (Player.handle_collisions l p).start_y = p.start_y := by
  unfold Player.handle_collisions
  simpa using foldl_collide_frame (Player.rect p) l { p with on_ground := false }

lemma clampX_frame (p : Player) :
    (Player.clampX p).y = p.y ∧
    (Player.clampX p).vel_x = p.vel_x ∧
    (Player.clampX p).vel_y = p.vel_y ∧
    (Player.clampX p).on_ground = p.on_ground ∧
    (Player.clampX p).width = p.width ∧
    (Player.clampX p).height = p.height ∧
    (Player.clampX p).start_x = p.start_x ∧
    (Player.clampX p).start_y = p.start_y := by
  unfold Player.clampX
  split_ifs <;> simp

lemma clampX_x (p : Player) : (Player.clampX p).x = clampQ p.width p.x := by
  unfold Player.clampX clampQ
  split_ifs <;> rfl

lemma update_x_eq (inp : Input) (plats : List Platform) (p : Player) :
    (Player.update inp plats p).x = clampQ p.width (p.x + velXOf inp) ∧
    (Player.update inp plats p).width = p.width := by
  unfold Player.update
  have hm := postMove_eq inp p
  have hh := handle_collisions_frame plats (Player.postMove inp p)
  have hx := clampX_x (Player.handle_collisions plats (Player.postMove inp p))
  have hw := (clampX_frame (Player.handle_collisions plats (Player.postMove inp p))).2.2.2.2.1
  constructor
  · rw [hx, hh.2.2.1, hh.1, hm]
  · rw [hw, hh.2.2.1, hm]

lemma update_player_frame (inp : Input) (plats : List Platform) (p : Player) :
    (Player.update inp plats p).start_x = p.start_x ∧
    (Player.update inp plats p).start_y = p.start_y ∧
    (Player.update inp plats p).width = p.width ∧
    (Player.update inp plats p).height = p.height := by
  unfold Player.update
  have hm := postMove_eq inp p
  have hh := handle_collisions_frame plats (Player.postMove inp p)
  have hc := clampX_frame (Player.handle_collisions plats (Player.postMove inp p))
  refine ⟨?_, ?_, ?_, ?_⟩
  · rw [hc.2.2.2.2.2.2.1, hh.2.2.2.2.1, hm]
  · rw [hc.2.2.2.2.2.2.2, hh.2.2.2.2.2, hm]
  · rw [hc.2.2.2.2.1, hh.2.2.1, hm]
  · rw [hc.2.2.2.2.2.1, hh.2.2.2.1, hm]

/-! ### C8: the rectangle overlap test -/

/-- C8: `rect_collision a b` is true exactly when `a.x < b.x + b.w`,
`a.x + a.w > b.x`, `a.y < b.y + b.h` and `a.y + a.h > b.y` hold; the test is
symmetric in its two arguments; and the edge-sharing rectangles
`(0,0,10,10)` and `(10,0,10,10)` do not overlap. -/
theorem rect_collision_overlap_test :
    (∀ a b : Rect, rect_collision a b = true ↔
      (a.x < b.x + b.w ∧ a.x + a.w > b.x ∧ a.y < b.y + b.h ∧ a.y + a.h > b.y)) ∧
    (∀ a b : Rect, rect_collision a b = rect_collision b a) ∧
    rect_collision ⟨0, 0, 10, 10⟩ ⟨10, 0, 10, 10⟩ = false := by
  refine ⟨?_, ?_, ?_⟩
  · intro a b
    simp [rect_collision, and_assoc]
  · intro a b
    rw [Bool.eq_iff_iff]
    simp only [rect_collision, Bool.and_eq_true, decide_eq_true_eq, gt_iff_lt,
      and_assoc]
    constructor
    · rintro ⟨h1, h2, h3, h4⟩
      exact ⟨h2, h1, h4, h3⟩
    · rintro ⟨h1, h2, h3, h4⟩
      exact ⟨h2, h1, h4, h3⟩
  · norm_num [rect_collision]

/-! ### C9: jump impulse and gravity are additive within a tick -/

/-- C9: when the jump button is freshly pressed while `on_ground` holds, the
vertical velocity used by that tick's position update is
`JUMP_STRENGTH + GRAVITY` and `on_ground` is cleared by the jump step; on
every tick, gravity is added to the vertical velocity before the position
update, and the position update uses exactly that velocity. -/
theorem jump_and_gravity_additive (inp : Input) (p : Player)
    (hj : inp.jumpPressed = true) (hg : p.on_ground = true) :
    (Player.postMove inp p).vel_y = JUMP_STRENGTH + GRAVITY ∧
    (Player.postMove inp p).y = p.y + (JUMP_STRENGTH + GRAVITY) ∧
    (Player.jump inp (Player.steer inp p)).on_ground = false ∧
    (∀ (inp2 : Input) (q : Player),
      (Player.postMove inp2 q).vel_y
        = (Player.jump inp2 (Player.steer inp2 q)).vel_y + GRAVITY ∧
      (Player.postMove inp2 q).y = q.y + (Player.postMove inp2 q).vel_y) := by
  have hvel : velYOf inp p = JUMP_STRENGTH + GRAVITY := by
    unfold velYOf
    rw [hj, hg]
    simp
  refine ⟨?_, ?_, ?_, ?_⟩
  · rw [postMove_eq]
    simpa using hvel
  · rw [postMove_eq]
    simpa using by rw [hvel]
  · unfold Player.jump Player.steer
    rw [hj]
    cases hl : inp.left <;> cases hrt : inp.right <;> simp [hg]
  · intro inp2 q
    have hsg : (Player.steer inp2 q).on_ground = q.on_ground := by
      unfold Player.steer
      split_ifs <;> rfl
    have hsv : (Player.steer inp2 q).vel_y = q.vel_y := by
      unfold Player.steer
      split_ifs <;> rfl
    constructor
    · rw [postMove_eq]
      unfold velYOf Player.jump
      rw [hsg]
      cases hb : inp2.jumpPressed && q.on_ground <;> simp [hb, hsv]
    · rw [postMove_eq]

/-- Witness for C9 at a concrete grounded player pressing jump. -/
theorem jump_and_gravity_additive_witness :
    (inpJumpW.jumpPressed = true ∧ groundedPlayerW.on_ground = true) ∧
    ((Player.postMove inpJumpW groundedPlayerW).vel_y
        = JUMP_STRENGTH + GRAVITY ∧
      (Player.postMove inpJumpW groundedPlayerW).y
        = groundedPlayerW.y + (JUMP_STRENGTH + GRAVITY) ∧
      (Player.jump inpJumpW (Player.steer inpJumpW groundedPlayerW)).on_ground
        = false ∧
      (∀ (inp2 : Input) (q : Player),
        (Player.postMove inp2 q).vel_y
          = (Player.jump inp2 (Player.steer inp2 q)).vel_y + GRAVITY ∧
        (Player.postMove inp2 q).y = q.y + (Player.postMove inp2 q).vel_y)) :=
  ⟨⟨rfl, rfl⟩, jump_and_gravity_additive inpJumpW groundedPlayerW rfl rfl⟩

/-! ### C7: a completed game is frozen until restart -/

/-- C7: while `game_complete` is true and restart is not pressed,
`Game.update` is the identity: no player physics, collectible updates,
pickups, score changes or fall-off checks happen. -/
theorem complete_state_frozen (bobFn : ℕ → ℚ) (inp : Input) (g : Game)
    (hc : g.game_complete = true) (hr : inp.restartPressed = false) :
    Game.update bobFn inp g = g := by
  simp [Game.update, hr, hc]

/-- Witness for C7 at a concrete completed game. -/
theorem complete_state_frozen_witness :
    ({ Game.init with game_complete := true } : Game).game_complete = true ∧
    inpNone.restartPressed = false ∧
    Game.update bobZero inpNone { Game.init with game_complete := true }
      = { Game.init with game_complete := true } :=
  ⟨rfl, rfl, complete_state_frozen bobZero inpNone _ rfl rfl⟩

/-! ### C2: the restart button takes precedence and resets everything -/

/-- C2: when restart is pressed, the tick is exactly `restart_level` and
nothing else; afterwards the player is back at its construction position
`(20, 80)` with zero velocity, the score is 0, every collectible's
`collected` flag is false, and `game_complete` is false. -/
theorem restart_button_resets (bobFn : ℕ → ℚ) (inp : Input) (g : Game)
    (hr : inp.restartPressed = true)
    (hsx : g.player.start_x = 20) (hsy : g.player.start_y = 80) :
    Game.update bobFn inp g = Game.restart_level g ∧
    (Game.update bobFn inp g).player.x = 20 ∧
    (Game.update bobFn inp g).player.y = 80 ∧
    (Game.update bobFn inp g).player.vel_x = 0 ∧
    (Game.update bobFn inp g).player.vel_y = 0 ∧
    (Game.update bobFn inp g).score = 0 ∧
    (Game.update bobFn inp g).game_complete = false ∧
    ∀ c ∈ (Game.update bobFn inp g).collectibles, c.collected = false := by
  have h : Game.update bobFn inp g = Game.restart_level g := by
    simp [Game.update, hr]
  rw [h]
  refine ⟨rfl, ?_, ?_, rfl, rfl, rfl, rfl, ?_⟩
  · simp [Game.restart_level, Player.reset, hsx]
  · simp [Game.restart_level, Player.reset, hsy]
  · intro c hc
    simp only [Game.restart_level, List.mem_map] at hc
    obtain ⟨c0, _, rfl⟩ := hc
    rfl

/-- Witness for C2 at the initial game with the X button pressed. -/
theorem restart_button_resets_witness :
    (inpRestart.restartPressed = true ∧ Game.init.player.start_x = 20 ∧
      Game.init.player.start_y = 80) ∧
    (Game.update bobZero inpRestart Game.init = Game.restart_level Game.init ∧
      (Game.update bobZero inpRestart Game.init).player.x = 20 ∧
      (Game.update bobZero inpRestart Game.init).player.y = 80 ∧
      (Game.update bobZero inpRestart Game.init).player.vel_x = 0 ∧
      (Game.update bobZero inpRestart Game.init).player.vel_y = 0 ∧
      (Game.update bobZero inpRestart Game.init).score = 0 ∧
      (Game.update bobZero inpRestart Game.init).game_complete = false ∧
      ∀ c ∈ (Game.update bobZero inpRestart Game.init).collectibles,
        c.collected = false) :=
  ⟨⟨rfl, rfl, rfl⟩, restart_button_resets bobZero inpRestart Game.init rfl rfl rfl⟩

/-! ### C10: restart preserves level and animation state -/

/-- C10: `restart_level` changes only the player's position, velocity and
ground flag, the score, the `collected` flags and `game_complete`; every
collectible keeps its `tick_counter`, `bob_offset`, position and star flag,
and the platform list is untouched — the level is not rebuilt. -/
theorem restart_preserves_level_and_animation (g : Game) :
    (Game.restart_level g).platforms = g.platforms ∧
    (Game.restart_level g).collectibles.length = g.collectibles.length ∧
    (∀ i : ℕ,
      ((Game.restart_level g).collectibles.get? i).map Collectible.tick_counter
        = (g.collectibles.get? i).map Collectible.tick_counter ∧
      ((Game.restart_level g).collectibles.get? i).map Collectible.bob_offset
        = (g.collectibles.get? i).map Collectible.bob_offset ∧
      ((Game.restart_level g).collectibles.get? i).map Collectible.x
        = (g.collectibles.get? i).map Collectible.x ∧
      ((Game.restart_level g).collectibles.get? i).map Collectible.y
        = (g.collectibles.get? i).map Collectible.y ∧
      ((Game.restart_level g).collectibles.get? i).map Collectible.is_star
        = (g.collectibles.get? i).map Collectible.is_star ∧
      ((Game.restart_level g).collectibles.get? i).map Collectible.collected
        = (g.collectibles.get? i).map fun _ => false) ∧
    (Game.restart_level g).player.x = g.player.start_x ∧
    (Game.restart_level g).player.y = g.player.start_y ∧
    (Game.restart_level g).player.vel_x = 0 ∧
    (Game.restart_level g).player.vel_y = 0 ∧
    (Game.restart_level g).player.start_x = g.player.start_x ∧
    (Game.restart_level g).player.start_y = g.player.start_y ∧
    (Game.restart_level g).player.width = g.player.width ∧
    (Game.restart_level g).player.height = g.player.height ∧
    (Game.restart_level g).score = 0 ∧
    (Game.restart_level g).game_complete = false := by
  refine ⟨rfl, by simp [Game.restart_level], ?_, rfl, rfl, rfl, rfl, rfl, rfl,
    rfl, rfl, rfl, rfl⟩
  intro i
  have hmap : (Game.restart_level g).collectibles.get? i
      = (g.collectibles.get? i).map fun c => { c with collected := false } :=
    List.get?_map _ _ _
  rw [hmap]
  cases h : g.collectibles.get? i
  · exact ⟨rfl, rfl, rfl, rfl, rfl, rfl⟩
  · exact ⟨rfl, rfl, rfl, rfl, rfl, rfl⟩

/-! ### C3: landing on a platform from above -/

lemma foldl_collide_skip (r : Rect) (l : List Platform) (q : Player)
    (hv : 0 < q.vel_y)
    (h : ∀ pl ∈ l, ¬(rect_collision r (Platform.get_rect pl) = true ∧ q.y < pl.y)) :
    l.foldl (fun a pl => Player.collideOne r pl a) q = q := by
  induction l with
  | nil => rfl
  | cons pl rest ih =>
    have hone : Player.collideOne r pl q = q := by
      unfold Player.collideOne
      have hpl := h pl (List.mem_cons_self pl rest)
      by_cases h1 : rect_collision r (Platform.get_rect pl) = true
      · rw [if_pos h1, if_pos hv, if_neg fun h3 => hpl ⟨h1, h3⟩]
      · rw [if_neg h1]
    simp only [List.foldl_cons, hone]
    exact ih fun pl2 hm => h pl2 (List.mem_cons_of_mem pl hm)

lemma foldl_collide_stuck (r : Rect) (l : List Platform) (q : Player)
    (hv : q.vel_y = 0) :
    l.foldl (fun a pl => Player.collideOne r pl a) q = q := by
  induction l with
  | nil => rfl
  | cons pl rest ih =>
    simp only [List.foldl_cons, collideOne_of_vel_y_zero r pl q hv]
    exact ih

/-- The landing claim fails when an earlier platform in the list already
satisfies the landing condition: with platforms at `y = 100` and `y = 101`,
a player whose post-move state is `(0, 94)` with `vel_y = 1` satisfies all
of the claim's hypotheses for the second platform, yet ends the tick at
`y = 92 = 100 - 8`, not at `101 - 8`. -/
theorem landing_platform_counterexample :
    cexPlatB ∈ [cexPlatA, cexPlatB] ∧
    0 < (Player.postMove inpNone cexFallingPlayer).vel_y ∧
    rect_collision (Player.rect (Player.postMove inpNone cexFallingPlayer))
      (Platform.get_rect cexPlatB) = true ∧
    (Player.postMove inpNone cexFallingPlayer).y < cexPlatB.y ∧
    (Player.update inpNone [cexPlatA, cexPlatB] cexFallingPlayer).y
      ≠ cexPlatB.y - cexFallingPlayer.height := by
  refine ⟨by simp, ?_, ?_, ?_, ?_⟩ <;>
    norm_num [Player.update, Player.postMove, Player.steer, Player.jump,
      Player.gravity, Player.move, Player.handle_collisions, Player.collideOne,
      Player.clampX, Player.rect, Platform.get_rect, rect_collision,
      cexFallingPlayer, cexPlatA, cexPlatB, inpNone,
      GRAVITY, JUMP_STRENGTH, PLAYER_SPEED, SCREEN_WIDTH]

/-- C3 (amended): if at collision-resolution time the player is falling
(`vel_y > 0`), its post-move rectangle overlaps the platform, its top is
above the platform's top, and no earlier platform in the list also
satisfies the landing condition, then the tick ends with `vel_y = 0`,
`on_ground = true` and `y = platform.y - player.height` exactly. -/
theorem landing_on_first_eligible_platform (inp : Input)
    (pre post : List Platform) (plat : Platform) (p : Player)
    (hv : 0 < (Player.postMove inp p).vel_y)
    (hov : rect_collision (Player.rect (Player.postMove inp p))
      (Platform.get_rect plat) = true)
    (htop : (Player.postMove inp p).y < plat.y)
    (hfirst : ∀ q ∈ pre,
      ¬(rect_collision (Player.rect (Player.postMove inp p))
          (Platform.get_rect q) = true ∧ (Player.postMove inp p).y < q.y)) :
    (Player.update inp (pre ++ plat :: post) p).y = plat.y - p.height ∧
    (Player.update inp (pre ++ plat :: post) p).vel_y = 0 ∧
    (Player.update inp (pre ++ plat :: post) p).on_ground = true := by
  set m := Player.postMove inp p with hm
  set m0 : Player := { m with on_ground := false } with hm0
  have hrect : Player.rect m0 = Player.rect m := rfl
  have hheight : m.height = p.height := by
    rw [hm, postMove_eq]
  have hcol : Player.handle_collisions (pre ++ plat :: post) m
      = { m0 with y := plat.y - m0.height, vel_y := 0, on_ground := true } := by
    unfold Player.handle_collisions
    rw [List.foldl_append]
    have hpre : pre.foldl (fun a pl => Player.collideOne (Player.rect m) pl a) m0
        = m0 := by
      refine foldl_collide_skip _ _ _ hv ?_
      intro pl hmem
      exact hfirst pl hmem
    rw [hpre]
    simp only [List.foldl_cons]
    have hland : Player.collideOne (Player.rect m) plat m0
        = { m0 with y := plat.y - m0.height, vel_y := 0, on_ground := true } := by
      unfold Player.collideOne
      rw [if_pos hov, if_pos hv, if_pos htop]
    rw [hland]
    exact foldl_collide_stuck _ _ _ rfl
  have hcl := clampX_frame (Player.handle_collisions (pre ++ plat :: post) m)
  unfold Player.update
  rw [← hm]
  refine ⟨?_, ?_, ?_⟩
  · rw [hcl.1, hcol]
    show plat.y - m0.height = plat.y - p.height
    rw [show m0.height = m.height from rfl, hheight]
  · rw [hcl.2.2.1, hcol]
  · rw [hcl.2.2.2.1, hcol]

/-- Witness for the amended C3 at a concrete falling player and a single
platform. -/
theorem landing_on_first_eligible_platform_witness :
    (0 < (Player.postMove inpNone cexFallingPlayer).vel_y ∧
      rect_collision (Player.rect (Player.postMove inpNone cexFallingPlayer))
        (Platform.get_rect cexPlatA) = true ∧
      (Player.postMove inpNone cexFallingPlayer).y < cexPlatA.y) ∧
    ((Player.update inpNone ([] ++ cexPlatA :: []) cexFallingPlayer).y
        = cexPlatA.y - cexFallingPlayer.height ∧
      (Player.update inpNone ([] ++ cexPlatA :: []) cexFallingPlayer).vel_y = 0 ∧
      (Player.update inpNone ([] ++ cexPlatA :: []) cexFallingPlayer).on_ground
        = true) := by
  have h1 : 0 < (Player.postMove inpNone cexFallingPlayer).vel_y := by
    norm_num [Player.postMove, Player.steer, Player.jump, Player.gravity,
      Player.move, cexFallingPlayer, inpNone, GRAVITY, PLAYER_SPEED]
  have h2 : rect_collision (Player.rect (Player.postMove inpNone cexFallingPlayer))
      (Platform.get_rect cexPlatA) = true := by
    norm_num [Player.postMove, Player.steer, Player.jump, Player.gravity,
      Player.move, Player.rect, Platform.get_rect, rect_collision,
      cexFallingPlayer, cexPlatA, inpNone, GRAVITY, PLAYER_SPEED]
  have h3 : (Player.postMove inpNone cexFallingPlayer).y < cexPlatA.y := by
    norm_num [Player.postMove, Player.steer, Player.jump, Player.gravity,
      Player.move, cexFallingPlayer, cexPlatA, inpNone, GRAVITY, PLAYER_SPEED]
  exact ⟨⟨h1, h2, h3⟩,
    landing_on_first_eligible_platform inpNone [] [] cexPlatA cexFallingPlayer
      h1 h2 h3 (by simp)⟩

/-! ### C5: horizontal clamp and convergence -/

lemma clampQ_mem (x : ℚ) : 0 ≤ clampQ 8 x ∧ clampQ 8 x ≤ SCREEN_WIDTH - 8 := by
  unfold clampQ SCREEN_WIDTH
  split_ifs <;> constructor <;> linarith

lemma clampL_zero_fix : ∀ k : ℕ,
    (fun x : ℚ => clampQ 8 (x + -PLAYER_SPEED))^[k] 0 = 0 := by
  intro k
  induction k with
  | zero => rfl
  | succ n ih =>
    rw [Function.iterate_succ_apply, show clampQ 8 (0 + -PLAYER_SPEED) = 0 from by
      norm_num [clampQ, PLAYER_SPEED]]
    exact ih

lemma clampL_reach : ∀ (n : ℕ) (x : ℚ), x ≤ 2 * n →
    (fun x : ℚ => clampQ 8 (x + -PLAYER_SPEED))^[n + 1] x = 0 := by
  intro n
  induction n with
  | zero =>
    intro x hx
    have : clampQ 8 (x + -PLAYER_SPEED) = 0 := by
      unfold clampQ PLAYER_SPEED
      rw [if_pos (by push_cast at hx; linarith)]
    simpa [Function.iterate_one] using this
  | succ n ih =>
    intro x hx
    rw [Function.iterate_succ_apply]
    by_cases h1 : x + -PLAYER_SPEED < 0
    · have hstep : clampQ 8 (x + -PLAYER_SPEED) = 0 := by
        unfold clampQ
        rw [if_pos h1]
      rw [hstep]
      exact clampL_zero_fix (n + 1)
    · by_cases h2 : x + -PLAYER_SPEED + 8 > SCREEN_WIDTH
      · have hstep : clampQ 8 (x + -PLAYER_SPEED) = SCREEN_WIDTH - 8 := by
          unfold clampQ
          rw [if_neg h1, if_pos h2]
        rw [hstep]
        refine ih (SCREEN_WIDTH - 8) ?_
        unfold PLAYER_SPEED SCREEN_WIDTH at h2
        have hn2 : (56 : ℚ) < (n : ℚ) := by push_cast at hx ⊢; linarith
        have hn3 : 56 < n := by exact_mod_cast hn2
        unfold SCREEN_WIDTH
        have hc : (57 : ℚ) ≤ (n : ℚ) := by exact_mod_cast hn3
        linarith
      · have hstep : clampQ 8 (x + -PLAYER_SPEED) = x + -PLAYER_SPEED := by
          unfold clampQ
          rw [if_neg h1, if_neg h2]
        rw [hstep]
        refine ih (x + -PLAYER_SPEED) ?_
        unfold PLAYER_SPEED
        push_cast at hx ⊢
        linarith

lemma clampR_fix : ∀ k : ℕ,
    (fun x : ℚ => clampQ 8 (x + PLAYER_SPEED))^[k] (SCREEN_WIDTH - 8)
      = SCREEN_WIDTH - 8 := by
  intro k
  induction k with
  | zero => rfl
  | succ n ih =>
    rw [Function.iterate_succ_apply,
      show clampQ 8 (SCREEN_WIDTH - 8 + PLAYER_SPEED) = SCREEN_WIDTH - 8 from by
        norm_num [clampQ, PLAYER_SPEED, SCREEN_WIDTH]]
    exact ih

lemma clampR_reach : ∀ (n : ℕ) (x : ℚ), SCREEN_WIDTH - 10 ≤ x + 2 * n →
    (fun x : ℚ => clampQ 8 (x + PLAYER_SPEED))^[n + 1] x = SCREEN_WIDTH - 8 := by
  intro n
  induction n with
  | zero =>
    intro x hx
    have hx2 : (110 : ℚ) ≤ x := by
      unfold SCREEN_WIDTH at hx
      push_cast at hx
      linarith
    have : clampQ 8 (x + PLAYER_SPEED) = SCREEN_WIDTH - 8 := by
      unfold clampQ PLAYER_SPEED SCREEN_WIDTH at *
      rw [if_neg (by linarith)]
      by_cases h2 : x + 2 + 8 > 120
      · rw [if_pos h2]
      · rw [if_neg h2]
        linarith
    simpa [Function.iterate_one] using this
  | succ n ih =>
    intro x hx
    rw [Function.iterate_succ_apply]
    by_cases h1 : x + PLAYER_SPEED < 0
    · have hstep : clampQ 8 (x + PLAYER_SPEED) = 0 := by
        unfold clampQ
        rw [if_pos h1]
      rw [hstep]
      refine ih 0 ?_
      unfold PLAYER_SPEED at h1
      unfold SCREEN_WIDTH at hx ⊢
      push_cast at hx ⊢
      linarith
    · by_cases h2 : x + PLAYER_SPEED + 8 > SCREEN_WIDTH
      · have hstep : clampQ 8 (x + PLAYER_SPEED) = SCREEN_WIDTH - 8 := by
          unfold clampQ
          rw [if_neg h1, if_pos h2]
        rw [hstep]
        exact clampR_fix (n + 1)
      · have hstep : clampQ 8 (x + PLAYER_SPEED) = x + PLAYER_SPEED := by
          unfold clampQ
          rw [if_neg h1, if_neg h2]
        rw [hstep]
        refine ih (x + PLAYER_SPEED) ?_
        unfold PLAYER_SPEED
        unfold SCREEN_WIDTH at hx ⊢
        push_cast at hx ⊢
        linarith

lemma playerTicks_x_left (plats : List Platform) (p : Player)
    (inps : ℕ → Input) (hw : p.width = 8) (hl : ∀ n, (inps n).left = true) :
    ∀ n : ℕ, (playerTicks inps plats p n).x
        = (fun x : ℚ => clampQ 8 (x + -PLAYER_SPEED))^[n] p.x ∧
      (playerTicks inps plats p n).width = 8 := by
  intro n
  induction n with
  | zero => exact ⟨rfl, hw⟩
  | succ n ih =>
    have hstep := update_x_eq (inps n) plats (playerTicks inps plats p n)
    have hvx : velXOf (inps n) = -PLAYER_SPEED := by
      simp [velXOf, hl n]
    constructor
    · show (Player.update (inps n) plats (playerTicks inps plats p n)).x = _
      rw [hstep.1, ih.2, hvx, ih.1, Function.iterate_succ_apply']
    · show (Player.update (inps n) plats (playerTicks inps plats p n)).width = 8
      rw [hstep.2, ih.2]

lemma playerTicks_x_right (plats : List Platform) (p : Player)
    (inps : ℕ → Input) (hw : p.width = 8)
    (hr : ∀ n, (inps n).left = false ∧ (inps n).right = true) :
    ∀ n : ℕ, (playerTicks inps plats p n).x
        = (fun x : ℚ => clampQ 8 (x + PLAYER_SPEED))^[n] p.x ∧
      (playerTicks inps plats p n).width = 8 := by
  intro n
  induction n with
  | zero => exact ⟨rfl, hw⟩
  | succ n ih =>
    have hstep := update_x_eq (inps n) plats (playerTicks inps plats p n)
    have hvx : velXOf (inps n) = PLAYER_SPEED := by
      simp [velXOf, (hr n).1, (hr n).2]
    constructor
    · show (Player.update (inps n) plats (playerTicks inps plats p n)).x = _
      rw [hstep.1, ih.2, hvx, ih.1, Function.iterate_succ_apply']
    · show (Player.update (inps n) plats (playerTicks inps plats p n)).width = 8
      rw [hstep.2, ih.2]

/-- C5: after every tick an 8-wide player's horizontal position lies in
`[0, SCREEN_WIDTH - 8] = [0, 112]`; holding left eventually pins `x` to
exactly 0 and holding right (without left) eventually pins `x` to exactly
`SCREEN_WIDTH - 8 = 112`, from any start position. -/
theorem horizontal_clamp_and_convergence :
    (∀ (inp : Input) (plats : List Platform) (p : Player), p.width = 8 →
      0 ≤ (Player.update inp plats p).x ∧
      (Player.update inp plats p).x ≤ SCREEN_WIDTH - 8) ∧
    (∀ (plats : List Platform) (p : Player) (inps : ℕ → Input), p.width = 8 →
      (∀ n, (inps n).left = true) →
      ∃ N, ∀ n, N ≤ n → (playerTicks inps plats p n).x = 0) ∧
    (∀ (plats : List Platform) (p : Player) (inps : ℕ → Input), p.width = 8 →
      (∀ n, (inps n).left = false ∧ (inps n).right = true) →
      ∃ N, ∀ n, N ≤ n →
        (playerTicks inps plats p n).x = SCREEN_WIDTH - 8) := by
  refine ⟨?_, ?_, ?_⟩
  · intro inp plats p hw
    have h := (update_x_eq inp plats p).1
    rw [h, hw]
    exact clampQ_mem (p.x + velXOf inp)
  · intro plats p inps hw hl
    refine ⟨⌈p.x / 2⌉₊ + 1, ?_⟩
    intro n hn
    obtain ⟨k, rfl⟩ := Nat.exists_eq_add_of_le hn
    rw [(playerTicks_x_left plats p inps hw hl _).1, Nat.add_comm,
      Function.iterate_add_apply]
    have hx : p.x ≤ 2 * (⌈p.x / 2⌉₊ : ℚ) := by
      have := Nat.le_ceil (p.x / 2)
      linarith
    rw [clampL_reach ⌈p.x / 2⌉₊ p.x hx]
    exact clampL_zero_fix k
  · intro plats p inps hw hr
    refine ⟨⌈(SCREEN_WIDTH - 10 - p.x) / 2⌉₊ + 1, ?_⟩
    intro n hn
    obtain ⟨k, rfl⟩ := Nat.exists_eq_add_of_le hn
    rw [(playerTicks_x_right plats p inps hw hr _).1, Nat.add_comm,
      Function.iterate_add_apply]
    have hx : SCREEN_WIDTH - 10
        ≤ p.x + 2 * (⌈(SCREEN_WIDTH - 10 - p.x) / 2⌉₊ : ℚ) := by
      have := Nat.le_ceil ((SCREEN_WIDTH - 10 - p.x) / 2)
      linarith
    rw [clampR_reach ⌈(SCREEN_WIDTH - 10 - p.x) / 2⌉₊ p.x hx]
    exact clampR_fix k

/-- Witness for C5: the initial player with left held on no platforms
eventually sits at `x = 0`, and one tick keeps `x` within bounds. -/
theorem horizontal_clamp_and_convergence_witness :
    ((Player.init 20 80).width = 8) ∧
    (0 ≤ (Player.update inpNone [] (Player.init 20 80)).x ∧
      (Player.update inpNone [] (Player.init 20 80)).x ≤ SCREEN_WIDTH - 8) ∧
    (∃ N, ∀ n, N ≤ n →
      (playerTicks (fun _ => inpLeft) [] (Player.init 20 80) n).x = 0) :=
  ⟨rfl,
    horizontal_clamp_and_convergence.1 inpNone [] (Player.init 20 80) rfl,
    horizontal_clamp_and_convergence.2.1 [] (Player.init 20 80)
      (fun _ => inpLeft) rfl (fun _ => rfl)⟩

/-! ### Lemmas about the pickup loop and restart -/

lemma collectLoop_fst (bobFn : ℕ → ℚ) (r : Rect) :
    ∀ (cs : List Collectible) (s : ℕ),
      (Game.collectLoop bobFn r cs s).1 = cs.map (elemStep bobFn r) := by
  intro cs
  induction cs with
  | nil => intro s; rfl
  | cons c rest ih =>
    intro s
    simp only [Game.collectLoop, elemStep, List.map_cons]
    split <;> simp [ih]

lemma elemStep_eq (bobFn : ℕ → ℚ) (r : Rect) (c : Collectible) :
    elemStep bobFn r c
      = if (!(Collectible.update bobFn c).collected &&
            rect_collision r (Collectible.get_rect (Collectible.update bobFn c)))
          = true then
          { Collectible.update bobFn c with collected := true }
        else Collectible.update bobFn c := rfl

lemma collectLoop_cons (bobFn : ℕ → ℚ) (r : Rect) (c : Collectible)
    (rest : List Collectible) (s : ℕ) :
    Game.collectLoop bobFn r (c :: rest) s
      = if (!(Collectible.update bobFn c).collected &&
            rect_collision r (Collectible.get_rect (Collectible.update bobFn c)))
          = true then
          ({ Collectible.update bobFn c with collected := true }
            :: (Game.collectLoop bobFn r rest (s + 10)).1,
           (Game.collectLoop bobFn r rest (s + 10)).2)
        else
          (Collectible.update bobFn c :: (Game.collectLoop bobFn r rest s).1,
           (Game.collectLoop bobFn r rest s).2) := by
  rw [Game.collectLoop]

lemma countP_collected_cons_true (c : Collectible) (l : List Collectible)
    (h : c.collected = true) :
    (c :: l).countP (·.collected) = l.countP (·.collected) + 1 := by
  rw [List.countP_cons]
  simp [h]

lemma countP_collected_cons_false (c : Collectible) (l : List Collectible)
    (h : c.collected = false) :
    (c :: l).countP (·.collected) = l.countP (·.collected) := by
  rw [List.countP_cons]
  simp [h]

lemma collectLoop_snd (bobFn : ℕ → ℚ) (r : Rect) :
    ∀ (cs : List Collectible) (s : ℕ),
      (Game.collectLoop bobFn r cs s).2 + 10 * cs.countP (·.collected)
          = s + 10 * (cs.map (elemStep bobFn r)).countP (·.collected) ∧
      cs.countP (·.collected)
          ≤ (cs.map (elemStep bobFn r)).countP (·.collected) := by
  intro cs
  induction cs with
  | nil => intro s; simp [Game.collectLoop]
  | cons c rest ih =>
    intro s
    have hcc : (Collectible.update bobFn c).collected = c.collected := rfl
    rw [collectLoop_cons]
    by_cases hb : (!(Collectible.update bobFn c).collected &&
        rect_collision r (Collectible.get_rect (Collectible.update bobFn c)))
        = true
    · have hc0 : c.collected = false := by
        rcases Bool.and_eq_true_iff.mp hb with ⟨h1, _⟩
        rw [← hcc]
        cases hx : (Collectible.update bobFn c).collected
        · rfl
        · rw [hx] at h1
          exact absurd h1 (by simp)
      have hmap : (c :: rest).map (elemStep bobFn r)
          = { Collectible.update bobFn c with collected := true }
            :: rest.map (elemStep bobFn r) := by
        simp only [List.map_cons, elemStep_eq]
        rw [if_pos hb]
      obtain ⟨ih1, ih2⟩ := ih (s + 10)
      rw [if_pos hb, hmap, countP_collected_cons_false c rest hc0,
        countP_collected_cons_true _ _ rfl]
      exact ⟨by omega, by omega⟩
    · have hmap : (c :: rest).map (elemStep bobFn r)
          = Collectible.update bobFn c :: rest.map (elemStep bobFn r) := by
        simp only [List.map_cons, elemStep_eq]
        rw [if_neg hb]
      obtain ⟨ih1, ih2⟩ := ih s
      cases hcol : c.collected
      · rw [if_neg hb, hmap, countP_collected_cons_false c rest hcol,
          countP_collected_cons_false _ _ (hcc.trans hcol)]
        exact ⟨by omega, by omega⟩
      · rw [if_neg hb, hmap, countP_collected_cons_true c rest hcol,
          countP_collected_cons_true _ _ (hcc.trans hcol)]
        exact ⟨by omega, by omega⟩

lemma elemStep_is_star (bobFn : ℕ → ℚ) (r : Rect) (c : Collectible) :
    (elemStep bobFn r c).is_star = c.is_star := by
  rw [elemStep_eq]
  split <;> rfl

lemma elemStep_collected_true (bobFn : ℕ → ℚ) (r : Rect) (c : Collectible)
    (h0 : c.collected = false) (h : (elemStep bobFn r c).collected = true) :
    rect_collision r (Collectible.get_rect (Collectible.update bobFn c)) = true ∧
    elemStep bobFn r c = { Collectible.update bobFn c with collected := true } := by
  have hcc : (Collectible.update bobFn c).collected = false := h0
  rw [elemStep_eq] at h ⊢
  by_cases hb : (!(Collectible.update bobFn c).collected &&
      rect_collision r (Collectible.get_rect (Collectible.update bobFn c)))
      = true
  · exact ⟨(Bool.and_eq_true_iff.mp hb).2, by rw [if_pos hb]⟩
  · rw [if_neg hb] at h
    rw [hcc] at h
    exact absurd h (by simp)

lemma countP_star_map_elemStep (bobFn : ℕ → ℚ) (r : Rect)
    (cs : List Collectible) :
    (cs.map (elemStep bobFn r)).countP (·.is_star) = cs.countP (·.is_star) := by
  rw [List.countP_map]
  refine List.countP_congr fun c _ => ?_
  simp [Function.comp, elemStep_is_star]

lemma restart_collectibles (g : Game) :
    (Game.restart_level g).collectibles
      = g.collectibles.map fun c => { c with collected := false } := rfl

lemma restart_star_collected (g : Game) :
    (Game.star (Game.restart_level g)).collected = false := by
  unfold Game.star
  rw [restart_collectibles, List.get?_map]
  cases g.collectibles.get? 7 <;> rfl

lemma restart_countP_star (g : Game) :
    (Game.restart_level g).collectibles.countP (·.is_star)
      = g.collectibles.countP (·.is_star) := by
  rw [restart_collectibles, List.countP_map]
  exact List.countP_congr fun c _ => Iff.rfl

lemma restart_countP_collected (g : Game) :
    (Game.restart_level g).collectibles.countP (·.collected) = 0 := by
  unfold Game.restart_level
  simp [List.countP_eq_zero]

lemma update_restart_case (bobFn : ℕ → ℚ) (inp : Input) (g : Game)
    (h : inp.restartPressed = true) :
    Game.update bobFn inp g = Game.restart_level g := by
  simp [Game.update, h]

lemma update_complete_case (bobFn : ℕ → ℚ) (inp : Input) (g : Game)
    (hr : inp.restartPressed = false) (hc : g.game_complete = true) :
    Game.update bobFn inp g = g := by
  simp [Game.update, hr, hc]

lemma update_playing_case (bobFn : ℕ → ℚ) (inp : Input) (g : Game)
    (hr : inp.restartPressed = false) (hc : g.game_complete = false) :
    Game.update bobFn inp g
      = Game.starCheck (Game.fallCheck (Game.playTick bobFn inp g)) := by
  simp [Game.update, hr, hc]

lemma playTick_fields (bobFn : ℕ → ℚ) (inp : Input) (g : Game) :
    (Game.playTick bobFn inp g).player = Player.update inp g.platforms g.player ∧
    (Game.playTick bobFn inp g).platforms = g.platforms ∧
    (Game.playTick bobFn inp g).game_complete = g.game_complete ∧
    (Game.playTick bobFn inp g).collectibles
      = g.collectibles.map (elemStep bobFn
          (Player.rect (Player.update inp g.platforms g.player))) ∧
    (Game.playTick bobFn inp g).score
      = (Game.collectLoop bobFn
          (Player.rect (Player.update inp g.platforms g.player))
          g.collectibles g.score).2 := by
  refine ⟨rfl, rfl, rfl, ?_, rfl⟩
  exact collectLoop_fst bobFn _ g.collectibles g.score

lemma star_set_complete (g : Game) (b : Bool) :
    Game.star { g with game_complete := b } = Game.star g := rfl

lemma fallCheck_pos (g : Game) (h : g.player.y > SCREEN_HEIGHT + 20) :
    Game.fallCheck g = Game.restart_level g := by
  simp [Game.fallCheck, h]

lemma fallCheck_neg (g : Game) (h : ¬g.player.y > SCREEN_HEIGHT + 20) :
    Game.fallCheck g = g := by
  simp [Game.fallCheck, h]

lemma starCheck_pos (g : Game) (h : (Game.star g).collected = true) :
    Game.starCheck g = { g with game_complete := true } := by
  simp [Game.starCheck, h]

lemma starCheck_neg (g : Game) (h : (Game.star g).collected = false) :
    Game.starCheck g = g := by
  simp [Game.starCheck, h]

/-- The inductive invariant of reachable game states: the completion flag
mirrors the star's `collected` flag, exactly one collectible is the star,
and the score is ten times the number of collected collectibles. -/
lemma reach_inv (bobFn : ℕ → ℚ) (g : Game) (h : Reachable bobFn g) :
    g.game_complete = (Game.star g).collected ∧
    g.collectibles.countP (·.is_star) = 1 ∧
    g.score = 10 * g.collectibles.countP (·.collected) := by
  induction h with
  | init => exact ⟨rfl, rfl, rfl⟩
  | step g inp hg ih =>
    obtain ⟨ih1, ih2, ih3⟩ := ih
    cases hr : inp.restartPressed with
    | true =>
      rw [update_restart_case bobFn inp g hr]
      refine ⟨(restart_star_collected g).symm, ?_, ?_⟩
      · rw [restart_countP_star, ih2]
      · rw [restart_countP_collected]
        rfl
    | false =>
      cases hc : g.game_complete with
      | true =>
        rw [update_complete_case bobFn inp g hr hc]
        exact ⟨ih1, ih2, ih3⟩
      | false =>
        rw [update_playing_case bobFn inp g hr hc]
        obtain ⟨hp1, hp2, hp3, hp4, hp5⟩ := playTick_fields bobFn inp g
        set g1 := Game.playTick bobFn inp g with hg1
        have hg1c : g1.game_complete = false := by rw [hp3, hc]
        have hg1star : g1.collectibles.countP (·.is_star) = 1 := by
          rw [hp4, countP_star_map_elemStep, ih2]
        have hg1score : g1.score = 10 * g1.collectibles.countP (·.collected) := by
          obtain ⟨hs1, hs2⟩ := collectLoop_snd bobFn
            (Player.rect (Player.update inp g.platforms g.player))
            g.collectibles g.score
          rw [hp5, hp4]
          omega
        by_cases hfall : g1.player.y > SCREEN_HEIGHT + 20
        · rw [fallCheck_pos g1 hfall,
            starCheck_neg _ (restart_star_collected g1)]
          refine ⟨(restart_star_collected g1).symm, ?_, ?_⟩
          · rw [restart_countP_star, hg1star]
          · rw [restart_countP_collected]
            rfl
        · rw [fallCheck_neg g1 hfall]
          cases hstar : (Game.star g1).collected with
          | true =>
            rw [starCheck_pos g1 hstar]
            exact ⟨by rw [star_set_complete, hstar], hg1star, hg1score⟩
          | false =>
            rw [starCheck_neg g1 hstar]
            exact ⟨by rw [hg1c, hstar], hg1star, hg1score⟩

/-! ### C1: the completion flag mirrors the star -/

/-- C1: in every reachable state, `game_complete` is true exactly when the
star's `collected` flag is true; exactly one collectible in the level is the
star; and `game_complete` can only become true on a tick in which the
player's rectangle overlapped the star's bobbed rectangle at pickup time. -/
theorem game_complete_iff_star_collected (bobFn : ℕ → ℚ) (g : Game)
    (h : Reachable bobFn g) :
    (g.game_complete = true ↔ (Game.star g).collected = true) ∧
    g.collectibles.countP (·.is_star) = 1 ∧
    (∀ inp : Input, g.game_complete = false →
      (Game.update bobFn inp g).game_complete = true →
      rect_collision (Player.rect (Game.update bobFn inp g).player)
        (Collectible.get_rect (Game.star (Game.update bobFn inp g))) = true) := by
  obtain ⟨h1, h2, _⟩ := reach_inv bobFn g h
  refine ⟨by rw [h1], h2, ?_⟩
  intro inp hc0 hc1
  cases hr : inp.restartPressed with
  | true =>
    rw [update_restart_case bobFn inp g hr] at hc1
    exact absurd hc1 (by simp [Game.restart_level])
  | false =>
    rw [update_playing_case bobFn inp g hr hc0] at hc1 ⊢
    obtain ⟨hp1, hp2, hp3, hp4, hp5⟩ := playTick_fields bobFn inp g
    set g1 := Game.playTick bobFn inp g with hg1
    by_cases hfall : g1.player.y > SCREEN_HEIGHT + 20
    · rw [fallCheck_pos g1 hfall,
        starCheck_neg _ (restart_star_collected g1)] at hc1
      exact absurd hc1 (by simp [Game.restart_level])
    · rw [fallCheck_neg g1 hfall] at hc1 ⊢
      cases hstar : (Game.star g1).collected with
      | false =>
        rw [starCheck_neg g1 hstar] at hc1
        rw [hp3] at hc1
        exact absurd hc1 (by rw [hc0]; simp)
      | true =>
        rw [starCheck_pos g1 hstar] at hc1 ⊢
        have hstar0 : (Game.star g).collected = false := by
          rw [← h1, hc0]
        have hget : g1.collectibles.get? 7
            = (g.collectibles.get? 7).map (elemStep bobFn
                (Player.rect (Player.update inp g.platforms g.player))) := by
          rw [hp4]
          exact List.get?_map _ _ _
        cases h7 : g.collectibles.get? 7 with
        | none =>
          have : Game.star g1 = Collectible.init 0 0 := by
            unfold Game.star
            rw [hget, h7]
            rfl
          rw [this] at hstar
          exact absurd hstar (by simp [Collectible.init])
        | some c =>
          have hstarg : Game.star g = c := by
            unfold Game.star
            rw [h7]
            rfl
          have hstar1 : Game.star g1
              = elemStep bobFn
                  (Player.rect (Player.update inp g.platforms g.player)) c := by
            unfold Game.star
            rw [hget, h7]
            rfl
          have hcol : c.collected = false := by
            rw [← hstarg]
            exact hstar0
          rw [hstar1] at hstar
          obtain ⟨hov, hshape⟩ := elemStep_collected_true bobFn _ c hcol hstar
          rw [star_set_complete]
          dsimp only
          rw [hp1, hstar1, hshape]
          exact hov

/-- Witness for C1 at the initial (reachable) game state. -/
theorem game_complete_iff_star_collected_witness :
    (Game.init.game_complete = true ↔ (Game.star Game.init).collected = true) ∧
    Game.init.collectibles.countP (·.is_star) = 1 ∧
    (∀ inp : Input, Game.init.game_complete = false →
      (Game.update bobZero inp Game.init).game_complete = true →
      rect_collision (Player.rect (Game.update bobZero inp Game.init).player)
        (Collectible.get_rect (Game.star (Game.update bobZero inp Game.init)))
        = true) :=
  game_complete_iff_star_collected bobZero Game.init Reachable.init

/-! ### C4: the score is ten times the collected count -/

/-- C4: in every reachable state the score equals 10 times the number of
collected collectibles (star included); on any tick the score is either
reset to 0 together with all `collected` flags (a restart), or increases by
exactly 10 per newly-collected item, never decreasing and never recounting
an already-collected item; and a tick that zeroes a positive score is a
restart-button tick or a fall-off-the-bottom tick. -/
theorem score_ten_times_collected (bobFn : ℕ → ℚ) (g : Game)
    (h : Reachable bobFn g) :
    g.score = 10 * g.collectibles.countP (·.collected) ∧
    (∀ inp : Input,
      ((Game.update bobFn inp g).score = 0 ∧
        (Game.update bobFn inp g).collectibles.countP (·.collected) = 0) ∨
      (g.collectibles.countP (·.collected)
          ≤ (Game.update bobFn inp g).collectibles.countP (·.collected) ∧
        (Game.update bobFn inp g).score
          = g.score + 10 * ((Game.update bobFn inp g).collectibles.countP
              (·.collected) - g.collectibles.countP (·.collected)))) ∧
    (∀ inp : Input, (Game.update bobFn inp g).score = 0 → 0 < g.score →
      inp.restartPressed = true ∨
      (Player.update inp g.platforms g.player).y > SCREEN_HEIGHT + 20) := by
  obtain ⟨_, _, ih3⟩ := reach_inv bobFn g h
  refine ⟨ih3, ?_, ?_⟩
  · intro inp
    cases hr : inp.restartPressed with
    | true =>
      rw [update_restart_case bobFn inp g hr]
      exact Or.inl ⟨rfl, restart_countP_collected g⟩
    | false =>
      cases hc : g.game_complete with
      | true =>
        rw [update_complete_case bobFn inp g hr hc]
        exact Or.inr ⟨le_refl _, by omega⟩
      | false =>
        rw [update_playing_case bobFn inp g hr hc]
        obtain ⟨hp1, hp2, hp3, hp4, hp5⟩ := playTick_fields bobFn inp g
        set g1 := Game.playTick bobFn inp g with hg1
        obtain ⟨hs1, hs2⟩ := collectLoop_snd bobFn
          (Player.rect (Player.update inp g.platforms g.player))
          g.collectibles g.score
        by_cases hfall : g1.player.y > SCREEN_HEIGHT + 20
        · rw [fallCheck_pos g1 hfall,
            starCheck_neg _ (restart_star_collected g1)]
          exact Or.inl ⟨rfl, restart_countP_collected g1⟩
        · rw [fallCheck_neg g1 hfall]
          have hsc : (Game.starCheck g1).score = g1.score := by
            unfold Game.starCheck
            split <;> rfl
          have hsco : (Game.starCheck g1).collectibles = g1.collectibles := by
            unfold Game.starCheck
            split <;> rfl
          rw [hsc, hsco, hp5, hp4]
          refine Or.inr ⟨?_, ?_⟩ <;> omega
  · intro inp h0 hpos
    cases hr : inp.restartPressed with
    | true => exact Or.inl rfl
    | false =>
      cases hc : g.game_complete with
      | true =>
        rw [update_complete_case bobFn inp g hr hc] at h0
        omega
      | false =>
        rw [update_playing_case bobFn inp g hr hc] at h0
        obtain ⟨hp1, hp2, hp3, hp4, hp5⟩ := playTick_fields bobFn inp g
        set g1 := Game.playTick bobFn inp g with hg1
        by_cases hfall : g1.player.y > SCREEN_HEIGHT + 20
        · rw [hp1] at hfall
          exact Or.inr hfall
        · exfalso
          rw [fallCheck_neg g1 hfall] at h0
          have hsc : (Game.starCheck g1).score = g1.score := by
            unfold Game.starCheck
            split <;> rfl
          obtain ⟨hs1, hs2⟩ := collectLoop_snd bobFn
            (Player.rect (Player.update inp g.platforms g.player))
            g.collectibles g.score
          rw [hsc, hp5] at h0
          omega

/-- Witness for C4 at the initial (reachable) game state. -/
theorem score_ten_times_collected_witness :
    Game.init.score = 10 * Game.init.collectibles.countP (·.collected) ∧
    (∀ inp : Input,
      ((Game.update bobZero inp Game.init).score = 0 ∧
        (Game.update bobZero inp Game.init).collectibles.countP (·.collected)
          = 0) ∨
      (Game.init.collectibles.countP (·.collected)
          ≤ (Game.update bobZero inp Game.init).collectibles.countP
              (·.collected) ∧
        (Game.update bobZero inp Game.init).score
          = Game.init.score
            + 10 * ((Game.update bobZero inp Game.init).collectibles.countP
                (·.collected)
              - Game.init.collectibles.countP (·.collected)))) ∧
    (∀ inp : Input, (Game.update bobZero inp Game.init).score = 0 →
      0 < Game.init.score →
      inp.restartPressed = true ∨
      (Player.update inp Game.init.platforms Game.init.player).y
        > SCREEN_HEIGHT + 20) :=
  score_ten_times_collected bobZero Game.init Reachable.init

/-! ### C6: falling off the bottom restarts the level -/

lemma rect_collision_y_high (r1 r2 : Rect) (h : r2.y + r2.h ≤ r1.y) :
    rect_collision r1 r2 = false := by
  unfold rect_collision
  have h3 : decide (r1.y < r2.y + r2.h) = false := by
    simp only [decide_eq_false_iff_not, not_lt]
    linarith
  rw [h3]
  simp

lemma foldl_collide_below (r : Rect) (l : List Platform)
    (hr : ∀ pl ∈ l, pl.y + pl.height ≤ r.y) :
    ∀ q : Player, l.foldl (fun a pl => Player.collideOne r pl a) q = q := by
  induction l with
  | nil => intro q; rfl
  | cons pl rest ih =>
    intro q
    have hone : Player.collideOne r pl q = q := by
      unfold Player.collideOne
      rw [rect_collision_y_high r (Platform.get_rect pl)
        (hr pl (List.mem_cons_self pl rest))]
      simp
    simp only [List.foldl_cons, hone]
    exact ih (fun pl2 hm => hr pl2 (List.mem_cons_of_mem pl hm)) q

lemma handle_collisions_below (plats : List Platform) (q : Player)
    (hq : ∀ pl ∈ plats, pl.y + pl.height ≤ q.y) :
    Player.handle_collisions plats q = { q with on_ground := false } := by
  unfold Player.handle_collisions
  exact foldl_collide_below (Player.rect q) plats hq _

lemma levelPlatforms_below (y : ℚ) (hy : SCREEN_HEIGHT < y) :
    ∀ pl ∈ levelPlatforms, pl.y + pl.height ≤ y := by
  intro pl hpl
  have hb : pl.y + pl.height ≤ SCREEN_HEIGHT := by
    unfold SCREEN_HEIGHT
    fin_cases hpl <;> norm_num
  linarith

/-- The fall-off claim fails for an upward-moving player: with
`y = SCREEN_HEIGHT + 21 = 141` but `vel_y = -8`, one tick moves the player
to `y = 133.5 ≤ 140`, so no reset fires — the score survives and the player
is not back at its start. -/
theorem fall_reset_counterexample :
    cexFallGame.game_complete = false ∧
    inpNone.restartPressed = false ∧
    cexFallGame.player.y = SCREEN_HEIGHT + 21 ∧
    (Game.update bobZero inpNone cexFallGame).score ≠ 0 ∧
    (Game.update bobZero inpNone cexFallGame).player.y
      ≠ cexFallGame.player.start_y := by
  refine ⟨rfl, rfl, ?_, ?_, ?_⟩ <;>
    norm_num [Game.update, Game.playTick, Game.fallCheck, Game.starCheck,
      Game.star, Game.collectLoop, Game.restart_level, Game.init,
      cexFallGame, inpNone, bobZero,
      Player.update, Player.postMove, Player.steer, Player.jump,
      Player.gravity, Player.move, Player.handle_collisions, Player.collideOne,
      Player.clampX, Player.rect, Player.init, Platform.get_rect,
      Collectible.update, Collectible.get_rect, Collectible.init,
      rect_collision, levelPlatforms, levelCollectibles,
      SCREEN_WIDTH, SCREEN_HEIGHT, GRAVITY, JUMP_STRENGTH, PLAYER_SPEED,
      GREEN, WHITE, GRAY, BROWN]

/-- C6 (amended): in a `Playing` state on the level's platforms, with the
player parked at `y = SCREEN_HEIGHT + 21`, a nonnegative vertical velocity
and no jump triggered this tick, one `Game.update` without restart input
performs the full reset: player back at its start with zero velocity, score
0, all `collected` flags false and `game_complete` false.  The trigger is
`player.y > SCREEN_HEIGHT + 20`, evaluated after this tick's physics. -/
theorem fall_off_triggers_reset (bobFn : ℕ → ℚ) (inp : Input) (g : Game)
    (hplat : g.platforms = levelPlatforms)
    (hc : g.game_complete = false)
    (hr : inp.restartPressed = false)
    (hj : (inp.jumpPressed && g.player.on_ground) = false)
    (hv : 0 ≤ g.player.vel_y)
    (hy : g.player.y = SCREEN_HEIGHT + 21) :
    (Game.update bobFn inp g).player.x = g.player.start_x ∧
    (Game.update bobFn inp g).player.y = g.player.start_y ∧
    (Game.update bobFn inp g).player.vel_x = 0 ∧
    (Game.update bobFn inp g).player.vel_y = 0 ∧
    (Game.update bobFn inp g).score = 0 ∧
    (Game.update bobFn inp g).game_complete = false ∧
    ∀ c ∈ (Game.update bobFn inp g).collectibles, c.collected = false := by
  have hvel : velYOf inp g.player = g.player.vel_y + GRAVITY := by
    unfold velYOf
    rw [hj]
    simp
  set m := Player.postMove inp g.player with hm
  have hmy : m.y = g.player.y + (g.player.vel_y + GRAVITY) := by
    rw [hm, postMove_eq, ← hvel]
  have hhigh : SCREEN_HEIGHT < m.y := by
    rw [hmy, hy]
    unfold GRAVITY
    linarith
  have hcol : Player.handle_collisions g.platforms m
      = { m with on_ground := false } := by
    rw [hplat]
    exact handle_collisions_below levelPlatforms m
      (levelPlatforms_below m.y hhigh)
  have hup : Player.update inp g.platforms g.player
      = Player.clampX { m with on_ground := false } := by
    unfold Player.update
    rw [← hm, hcol]
  have hupy : (Player.update inp g.platforms g.player).y = m.y := by
    rw [hup, (clampX_frame _).1]
  have hfall : (Player.update inp g.platforms g.player).y
      > SCREEN_HEIGHT + 20 := by
    rw [hupy, hmy, hy]
    unfold GRAVITY
    linarith
  rw [update_playing_case bobFn inp g hr hc]
  obtain ⟨hp1, hp2, hp3, hp4, hp5⟩ := playTick_fields bobFn inp g
  set g1 := Game.playTick bobFn inp g with hg1
  have hfall1 : g1.player.y > SCREEN_HEIGHT + 20 := by
    rw [hp1]
    exact hfall
  rw [fallCheck_pos g1 hfall1, starCheck_neg _ (restart_star_collected g1)]
  have hstartx : g1.player.start_x = g.player.start_x := by
    rw [hp1]
    exact (update_player_frame inp g.platforms g.player).1
  have hstarty : g1.player.start_y = g.player.start_y := by
    rw [hp1]
    exact (update_player_frame inp g.platforms g.player).2.1
  refine ⟨hstartx, hstarty, rfl, rfl, rfl, rfl, ?_⟩
  intro c hmem
  rw [restart_collectibles] at hmem
  simp only [List.mem_map] at hmem
  obtain ⟨c0, _, rfl⟩ := hmem
  rfl

/-- Witness for the amended C6: a concrete state just below the kill line
with downward velocity and a nonzero score resets on one tick. -/
theorem fall_off_triggers_reset_witness :
    (witFallGame.platforms = levelPlatforms ∧
      witFallGame.game_complete = false ∧
      inpNone.restartPressed = false ∧
      (inpNone.jumpPressed && witFallGame.player.on_ground) = false ∧
      0 ≤ witFallGame.player.vel_y ∧
      witFallGame.player.y = SCREEN_HEIGHT + 21) ∧
    ((Game.update bobZero inpNone witFallGame).player.x
        = witFallGame.player.start_x ∧
      (Game.update bobZero inpNone witFallGame).player.y
        = witFallGame.player.start_y ∧
      (Game.update bobZero inpNone witFallGame).player.vel_x = 0 ∧
      (Game.update bobZero inpNone witFallGame).player.vel_y = 0 ∧
      (Game.update bobZero inpNone witFallGame).score = 0 ∧
      (Game.update bobZero inpNone witFallGame).game_complete = false ∧
      ∀ c ∈ (Game.update bobZero inpNone witFallGame).collectibles,
        c.collected = false) := by
  have h5 : (0 : ℚ) ≤ witFallGame.player.vel_y := by
    norm_num [witFallGame, Game.init, Player.init]
  have h6 : witFallGame.player.y = SCREEN_HEIGHT + 21 := by
    norm_num [witFallGame, Game.init, Player.init, SCREEN_HEIGHT]
  exact ⟨⟨rfl, rfl, rfl, rfl, h5, h6⟩,
    fall_off_triggers_reset bobZero inpNone witFallGame rfl rfl rfl rfl h5 h6⟩

end Pico
